import Mathlib

/-
Verification of the Cerina protocol-foundry workflow engine
(backend/src/cerina: state.py, graph.py, api.py, agents/).

Shallow embedding conventions:
- Python floats carrying quality scores are modelled as rationals (ℚ); the
  scores and thresholds compared by the code (0.2, 0.6, 0.7, …) are exact
  decimal values, so order comparisons agree with the source.
- A node's return value (Python dict `StateUpdate`) is a record of optional
  fields: `none` means the key is absent from the dict ("no change").
- LangGraph applies a node's partial update field by field: replace-on-write
  for every field except `reviews`, which is combined with `merge_reviews`
  (the reducer declared on `FoundryState.reviews` in state.py).
- Calls to the LLM (`generate_text` / `generate_json`) and uuid/clock reads
  are external effects; they are modelled as environment records passed to
  the agent functions.  The JSON post-processing that only shapes strings
  (building `full_rationale` from concerns/recommendations, etc.) is folded
  into the environment's payload; the numeric clamping and fallback values,
  which the code performs itself, are kept explicit.
-/

namespace Cerina

/-- Lifecycle status of a workflow instance (state.py, `FoundryState.status`). -/
inductive Status where
  | INIT
  | DRAFTING
  | REVIEWING
  | REVISING
  | AWAITING_HUMAN
  | APPROVED
  | FAILED
  | REJECTED
deriving DecidableEq, Repr

/-- A single reviewer annotation (state.py, class `Review`). -/
structure Review where
  id : String
  agent_name : String
  target_draft_id : String
  summary : String
  line_level_comments : List (String × String) := []
  safety_score : Option ℚ := none
  empathy_score : Option ℚ := none
  clinical_score : Option ℚ := none
  rationale : String
deriving DecidableEq, Repr

/-- A protocol draft artifact (state.py, class `Draft`).  `created_at` is an
abstract timestamp. -/
structure Draft where
  id : String
  content : String
  created_at : Nat := 0
  created_by : String
  parent_draft_id : Option String := none
  version_number : Int := 1
deriving DecidableEq, Repr

/-- Free-form per-agent notes (state.py, class `AgentScratchpad`); the Python
dict is modelled as an association list. -/
structure AgentScratchpad where
  notes : List (String × String) := []
deriving DecidableEq, Repr

/-- The shared workflow state (state.py, class `FoundryState`). -/
structure FoundryState where
  session_id : String
  user_intent : String
  user_context : Option String := none
  current_draft : Option Draft := none
  draft_history : List Draft := []
  reviews : List Review := []
  safety_score : Option ℚ := none
  empathy_score : Option ℚ := none
  clinical_score : Option ℚ := none
  iteration : Int := 0
  max_iterations : Int := 4
  status : Status := .INIT
  approve_after_revision : Bool := false
  error : Option String := none
  scratchpads : AgentScratchpad := {}
deriving DecidableEq, Repr

/-- Reducer for the `reviews` field (state.py, `merge_reviews`): concatenates
the incoming partial list onto the current one.  The Python `None` guards
correspond to the absent-field case, which `applyUpdate` passes as `[]`. -/
def merge_reviews (current new : List Review) : List Review :=
  current ++ new

/-- A node's partial state update (agents/base.py `StateUpdate`, a Python
dict).  `none` in a field means the key is absent ("no change"). -/
structure StateUpdate where
  user_intent : Option String := none
  scratchpads : Option AgentScratchpad := none
  current_draft : Option Draft := none
  draft_history : Option (List Draft) := none
  reviews : Option (List Review) := none
  safety_score : Option ℚ := none
  empathy_score : Option ℚ := none
  clinical_score : Option ℚ := none
  iteration : Option Int := none
  status : Option Status := none
  approve_after_revision : Option Bool := none
  error : Option String := none
deriving DecidableEq, Repr

/-- LangGraph's channel merge: replace-on-write for every field except
`reviews`, which goes through the `merge_reviews` reducer declared on
`FoundryState.reviews` (state.py line 70). -/
def applyUpdate (s : FoundryState) (u : StateUpdate) : FoundryState :=
  { s with
    user_intent := u.user_intent.getD s.user_intent
    scratchpads := u.scratchpads.getD s.scratchpads
    current_draft := match u.current_draft with
      | some d => some d
      | none => s.current_draft
    draft_history := u.draft_history.getD s.draft_history
    reviews := merge_reviews s.reviews (u.reviews.getD [])
    safety_score := match u.safety_score with
      | some q => some q
      | none => s.safety_score
    empathy_score := match u.empathy_score with
      | some q => some q
      | none => s.empathy_score
    clinical_score := match u.clinical_score with
      | some q => some q
      | none => s.clinical_score
    iteration := u.iteration.getD s.iteration
    status := u.status.getD s.status
    approve_after_revision := u.approve_after_revision.getD s.approve_after_revision
    error := match u.error with
      | some e => some e
      | none => s.error }

/-- Safety threshold (graph.py lines 21, 99). -/
def SAFETY_THRESHOLD : ℚ := 0.7

/-- Empathy threshold (graph.py lines 22, 100). -/
def EMPATHY_THRESHOLD : ℚ := 0.6

/-- Clinical threshold (graph.py lines 23, 101). -/
def CLINICAL_THRESHOLD : ℚ := 0.6

/-- All three aggregate scores are non-null (graph.py `scores_present`,
computed identically in `run_supervisor` and `route_supervisor`). -/
def scores_present (s : FoundryState) : Prop :=
  s.safety_score ≠ none ∧ s.empathy_score ≠ none ∧ s.clinical_score ≠ none

instance scoresPresentDec (s : FoundryState) : Decidable (scores_present s) := by
  unfold scores_present
  infer_instance

/-- All three scores are present and each meets its threshold (graph.py
`scores_passing`).  `getD 0` is only read under the presence guard, matching
the short-circuit `and` of the source. -/
def scores_passing (s : FoundryState) : Prop :=
  scores_present s ∧
  SAFETY_THRESHOLD ≤ s.safety_score.getD 0 ∧
  EMPATHY_THRESHOLD ≤ s.empathy_score.getD 0 ∧
  CLINICAL_THRESHOLD ≤ s.clinical_score.getD 0

instance scoresPassingDec (s : FoundryState) : Decidable (scores_passing s) := by
  unfold scores_passing
  infer_instance

/-- The supervisor node (graph.py `run_supervisor`). -/
def run_supervisor (state : FoundryState) : StateUpdate :=
  -- 1. Critical Safety Check
  if state.safety_score ≠ none ∧ state.safety_score.getD 0 < (0.2 : ℚ) then
    { status := some .FAILED
      error := some "Critical safety violation detected."
      approve_after_revision := some false }
  -- 3. "Approve & Continue Agents" mode
  else if state.approve_after_revision = true ∧ state.status = .REVIEWING then
    if scores_passing state then
      { status := some .APPROVED
        approve_after_revision := some false }
    else if state.max_iterations ≤ state.iteration then
      { status := some .FAILED
        error := some "Max iterations reached without meeting quality thresholds."
        approve_after_revision := some false }
    else {}
  -- 4. Normal flow: check if ready for human review
  else if scores_passing state ∧ 1 ≤ state.iteration then {}
  -- 5. Check max iterations
  else if state.max_iterations ≤ state.iteration ∧ ¬ scores_passing state then
    { status := some .FAILED
      error := some "Max iterations reached without meeting quality thresholds." }
  else {}

/-- The suspension node (graph.py `await_human`). -/
def await_human (_state : FoundryState) : StateUpdate :=
  { status := some .AWAITING_HUMAN }

/-- The successor labels a conditional route can pick (graph.py
`route_supervisor` return values; `build_graph` maps `FAILED`, `approved` and
`rejected` to END). -/
inductive RouteLabel where
  | await_human
  | revision
  | FAILED
  | approved
  | rejected
deriving DecidableEq, Repr

/-- The conditional router after the supervisor (graph.py `route_supervisor`).
The Python function computes the threshold booleans between the `REVISING`
and `REJECTED` status checks; the computation is pure, so hoisting it into
`scores_passing` preserves the branch order of the source. -/
def route_supervisor (state : FoundryState) : RouteLabel :=
  if state.status = .FAILED then .FAILED
  else if state.status = .APPROVED then .approved
  else if state.status = .REVISING then .revision
  -- Handle REJECTED status - end immediately
  else if state.status = .REJECTED then .rejected
  -- "Approve & Continue Agents" mode
  else if state.approve_after_revision = true ∧ state.status = .REVIEWING then
    if scores_passing state then .approved
    else if state.iteration < state.max_iterations then .revision
    else .FAILED
  -- Normal flow: wait for human when scores pass
  else if scores_passing state ∧ 1 ≤ state.iteration then .await_human
  else if state.iteration < state.max_iterations then .revision
  else .FAILED

/-! Agent nodes.  Each agent's calls to the LLM, the uuid generator and the
clock are external effects, modelled by an environment record.  The
environment carries the payload the code extracts from the LLM response
(already shaped by the string-level post-processing); the fallback values and
the numeric clamping, which the code itself performs, stay explicit. -/

/-- Environment of an artifact-producing agent: the outcome of the
`generate_text` call (`.error` carries the exception's message), a fresh
uuid, and the current time. -/
structure DraftEnv where
  llm : Except String String
  uuid : String
  now : Nat
deriving Repr

/-- Fallback protocol content built by `run_drafting_agent` when the LLM
call fails (drafting.py lines 133-160). -/
def drafting_fallback_content (user_intent e : String) : String :=
  "CBT Protocol for: " ++ user_intent ++
  "\n\n**Note: This is a fallback template. LLM generation failed.**\n\n" ++
  "## Summary\n- CBT protocol skeleton generated without model assistance.\n\n" ++
  "## Core CBT Steps\n" ++
  "1. Provide brief psychoeducation about the condition and CBT rationale.\n" ++
  "2. Collaboratively identify target situations and build a graded exposure plan.\n" ++
  "3. Teach basic cognitive restructuring (identify and challenge key thoughts).\n" ++
  "4. Assign between-session practice and review logs in each session.\n\n" ++
  "## Exposure Hierarchy\n" ++
  "| Step | Situation                  | Anticipated SUDS (0–100) | Target SUDS (0–100) | Notes                  |\n" ++
  "| 1    | Mildly anxiety-provoking   | 20                        | 10                  | Very safe, easy start. |\n" ++
  "| 2    | Moderately challenging     | 40                        | 20                  | Repeat several times.  |\n" ++
  "| 3    | Clearly difficult          | 60                        | 30                  | Stay until SUDS drops. |\n" ++
  "| 4    | Very difficult             | 80                        | 40                  | With therapist support.|\n\n" ++
  "## Homework\n" ++
  "- Practice agreed exposure steps several times per week.\n" ++
  "- Track SUDS before, peak, and after each exposure.\n" ++
  "- Bring logs to the next session.\n\n" ++
  "If you experience severe distress or safety concerns, contact your therapist or a crisis service.\n\n" ++
  "Error details: " ++ e

/-- The drafting node (drafting.py `run_drafting_agent`).  The prompt text
(which only feeds the external LLM) is not modelled; the generated or
fallback content is.  Produces a new current draft, appends the previous
current draft (if any) to the history, increments the iteration counter and
moves the status to REVIEWING. -/
def run_drafting_agent (env : DraftEnv) (state : FoundryState) : StateUpdate :=
  let protocol_content :=
    match env.llm with
    | .ok t => t
    | .error e => drafting_fallback_content state.user_intent e
  let new_draft : Draft :=
    { id := env.uuid
      content := protocol_content
      created_at := env.now
      created_by := "DraftingAgent"
      version_number := state.iteration + 1
      parent_draft_id := state.current_draft.map Draft.id }
  let new_history := state.draft_history ++ state.current_draft.toList
  { current_draft := some new_draft
    draft_history := some new_history
    iteration := some (state.iteration + 1)
    status := some .REVIEWING }

/-- Fallback revised content built by `run_revision_agent` when the LLM call
fails (revision.py lines 95-101): the old content plus a note carrying the
joined reviewer summaries (or a placeholder when the join is empty). -/
def revision_fallback_content (current : Draft) (relevant : List Review) (e : String) : String :=
  let joined := String.intercalate "; " (relevant.map Review.summary)
  let feedback_summary := if joined = "" then "No reviewer summaries." else joined
  current.content ++ "\n\n[Revision Note: Feedback received - " ++ feedback_summary ++
    ". LLM revision failed: " ++ e ++ "]"

/-- The revision node (revision.py `run_revision_agent`).  Returns the empty
update when there is no current draft; otherwise produces a revised draft,
appends the previous current draft to the history, increments the iteration
counter and moves the status to REVIEWING. -/
def run_revision_agent (env : DraftEnv) (state : FoundryState) : StateUpdate :=
  match state.current_draft with
  | none => {}
  | some current_draft =>
    let relevant_reviews :=
      state.reviews.filter (fun r => r.target_draft_id == current_draft.id)
    let revised_content :=
      match env.llm with
      | .ok t => t
      | .error e => revision_fallback_content current_draft relevant_reviews e
    let new_draft : Draft :=
      { id := env.uuid
        content := revised_content
        created_at := env.now
        created_by := "RevisionAgent"
        version_number := current_draft.version_number + 1
        parent_draft_id := some current_draft.id }
    { current_draft := some new_draft
      draft_history := some (state.draft_history ++ [current_draft])
      iteration := some (state.iteration + 1)
      status := some .REVIEWING }

/-- Payload a reviewer extracts from a successful `generate_json` call: the
raw numeric score (before clamping), the summary, and the assembled
rationale text. -/
structure ReviewerLLM where
  score : ℚ
  summary : String
  rationale : String
deriving Repr

/-- Environment of a reviewer node: outcome of the `generate_json` call and
a fresh uuid for the produced review. -/
structure ReviewerEnv where
  llm : Except String ReviewerLLM
  uuid : String
deriving Repr

/-- The safety reviewer (safety.py `run_safety_guardian`).  Returns the empty
update when there is no current draft; otherwise appends exactly one review
tagged with the current draft's id and sets the aggregate safety score
(clamped to [0, 1]; fallback 0.8 on LLM failure). -/
def run_safety_guardian (env : ReviewerEnv) (state : FoundryState) : StateUpdate :=
  match state.current_draft with
  | none => {}
  | some draft =>
    let fields :=
      match env.llm with
      | .ok r => (max 0 (min 1 r.score), r.summary, r.rationale)
      | .error e => ((0.8 : ℚ), "Safety Assessment (fallback)",
          "Unable to perform detailed safety analysis. Using fallback score. Error: " ++ e)
    let review : Review :=
      { id := env.uuid
        agent_name := "SafetyGuardian"
        target_draft_id := draft.id
        summary := fields.2.1
        line_level_comments := []
        safety_score := some fields.1
        rationale := fields.2.2 }
    { reviews := some [review]
      safety_score := some fields.1 }

/-- The empathy reviewer (empathy.py `run_empathy_tone_agent`); fallback
score 0.85 on LLM failure. -/
def run_empathy_tone_agent (env : ReviewerEnv) (state : FoundryState) : StateUpdate :=
  match state.current_draft with
  | none => {}
  | some draft =>
    let fields :=
      match env.llm with
      | .ok r => (max 0 (min 1 r.score), r.summary, r.rationale)
      | .error e => ((0.85 : ℚ), "Tone Assessment (fallback)",
          "Unable to perform detailed empathy analysis. Using fallback score. Error: " ++ e)
    let review : Review :=
      { id := env.uuid
        agent_name := "EmpathyToneAgent"
        target_draft_id := draft.id
        summary := fields.2.1
        line_level_comments := []
        empathy_score := some fields.1
        rationale := fields.2.2 }
    { reviews := some [review]
      empathy_score := some fields.1 }

/-- The clinical reviewer (clinical.py `run_clinical_critic`); fallback score
0.9 on LLM failure. -/
def run_clinical_critic (env : ReviewerEnv) (state : FoundryState) : StateUpdate :=
  match state.current_draft with
  | none => {}
  | some draft =>
    let fields :=
      match env.llm with
      | .ok r => (max 0 (min 1 r.score), r.summary, r.rationale)
      | .error e => ((0.9 : ℚ), "Clinical Assessment (fallback)",
          "Unable to perform detailed clinical analysis. Using fallback score. Error: " ++ e)
    let review : Review :=
      { id := env.uuid
        agent_name := "ClinicalCritic"
        target_draft_id := draft.id
        summary := fields.2.1
        line_level_comments := []
        clinical_score := some fields.1
        rationale := fields.2.2 }
    { reviews := some [review]
      clinical_score := some fields.1 }

/-- Write one agent's note into the scratchpad (state.py `add_note` /
intent.py dict update), modelled on the association list. -/
def setNote (sp : AgentScratchpad) (agent note : String) : AgentScratchpad :=
  { notes := sp.notes.filter (fun p => p.1 != agent) ++ [(agent, note)] }

/-- Environment of the intent interpreter: on success the pair of the
normalized intent (already stripped; empty means the LLM gave none) and the
assembled notes string; on failure the exception message. -/
structure IntentEnv where
  llm : Except String (String × String)
deriving Repr

/-- The intent-interpreter node (intent.py `run_intent_interpreter`):
normalizes the user intent, stores a note under "IntentInterpreter" and
moves the status to DRAFTING. -/
def run_intent_interpreter (env : IntentEnv) (state : FoundryState) : StateUpdate :=
  let user_intent := state.user_intent.trim
  let pair :=
    match env.llm with
    | .ok (ni, notes) => (if ni = "" then user_intent else ni, notes)
    | .error _ => (user_intent, "Normalized (fallback): " ++ user_intent)
  { user_intent := some pair.1
    scratchpads := some (setNote state.scratchpads "IntentInterpreter" pair.2)
    status := some .DRAFTING }

/-! Artifact-producing steps: the drafting and revision nodes are the only
nodes that write `current_draft` / `draft_history` (C3). -/

/-- One artifact-producing step together with its environment. -/
inductive ArtifactStep where
  | drafting (env : DraftEnv)
  | revision (env : DraftEnv)

/-- The partial update an artifact step produces on a state. -/
def artifactUpdate : ArtifactStep → FoundryState → StateUpdate
  | .drafting env, s => run_drafting_agent env s
  | .revision env, s => run_revision_agent env s

/-- Execute one artifact step: produce the update and merge it. -/
def applyStep (s : FoundryState) (st : ArtifactStep) : FoundryState :=
  applyUpdate s (artifactUpdate st s)

/-- Execute a sequence of artifact steps. -/
def runSteps (s : FoundryState) (steps : List ArtifactStep) : FoundryState :=
  steps.foldl applyStep s

/-- Number of steps in the sequence that actually produce a new artifact
(drafting always does; revision only when a current draft exists). -/
def producedCount : FoundryState → List ArtifactStep → Nat
  | _, [] => 0
  | s, st :: rest =>
    (if (artifactUpdate st s).current_draft.isSome then 1 else 0) +
      producedCount (applyStep s st) rest

/-- History length plus one for a non-null current artifact. -/
def artifactCount (s : FoundryState) : Nat :=
  s.draft_history.length + (if s.current_draft.isSome then 1 else 0)

/-! The human-approval resume patch (api.py `human_approve`) and the
executor loop.  LangGraph's run loop itself is library code outside this
repository; it is modelled from the spec (§4.3: dispatch node, merge via the
field reducers, evaluate the conditional router on the post-merge state,
interrupt after `await_human`), while the graph wiring is taken from
`build_graph` in graph.py. -/

/-- The four human decisions (api.py `HumanApproveRequest.action`). -/
inductive HumanAction where
  | APPROVE_FINAL
  | APPROVE_CONTINUE
  | REQUEST_REVISION
  | REJECT
deriving DecidableEq, Repr

/-- The body of the human-approval endpoint request (api.py
`HumanApproveRequest`). -/
structure HumanApproveRequest where
  new_content : String
  action : HumanAction
  comments : Option String := none
deriving DecidableEq, Repr

/-- Display name of a human action (Python enum string value). -/
def actionName : HumanAction → String
  | .APPROVE_FINAL => "APPROVE_FINAL"
  | .APPROVE_CONTINUE => "APPROVE_CONTINUE"
  | .REQUEST_REVISION => "REQUEST_REVISION"
  | .REJECT => "REJECT"

/-- The "Human Review" record logged by `human_approve` (api.py lines
114-123).  An absent or empty comment string is replaced by the default,
matching Python's falsy-`or`. -/
def human_review (uuid : String) (req : HumanApproveRequest)
    (current_state : FoundryState) : Review :=
  { id := uuid
    agent_name := "HumanReviewer"
    target_draft_id :=
      match current_state.current_draft with
      | some d => d.id
      | none => "unknown"
    summary := "Human Action: " ++ actionName req.action
    line_level_comments := []
    safety_score := if req.action ≠ .REQUEST_REVISION then some 1 else none
    empathy_score := if req.action ≠ .REQUEST_REVISION then some 1 else none
    clinical_score := if req.action ≠ .REQUEST_REVISION then some 1 else none
    rationale :=
      match req.comments with
      | some c => if c = "" then "No comments provided." else c
      | none => "No comments provided." }

/-- The update dict `human_approve` builds and applies through
`graph.aupdate_state(..., as_node="await_human")` (api.py lines 125-162):
the full serialized list of existing reviews plus the new human review, an
optional replacement draft when the human edited the content, and the
status / flag assignment selected by the action. -/
def human_approve_updates (uuid : String) (req : HumanApproveRequest)
    (current_state : FoundryState) : StateUpdate :=
  let hr := human_review uuid req current_state
  let serialized_reviews := current_state.reviews ++ [hr]
  let draft_update : Option Draft :=
    match current_state.current_draft with
    | some d =>
      if req.new_content ≠ d.content
      then some { d with content := req.new_content }
      else none
    | none => none
  { reviews := some serialized_reviews
    current_draft := draft_update
    status := some
      (match req.action with
       | .APPROVE_FINAL => .APPROVED
       | .APPROVE_CONTINUE => .REVISING
       | .REQUEST_REVISION => .REVISING
       | .REJECT => .REJECTED)
    approve_after_revision :=
      if req.action = .APPROVE_CONTINUE then some true else none }

/-- The named nodes of the compiled graph (graph.py `build_graph`). -/
inductive Node where
  | intent_interpreter
  | drafting
  | safety
  | empathy
  | clinical
  | revision
  | supervisor
  | await_human
deriving DecidableEq, Repr

/-- Per-node environments for one run: each function yields the external
effects (LLM outcome, uuid, clock) for an invocation of that node on the
given input snapshot. -/
structure EnvOracle where
  intentEnv : FoundryState → IntentEnv
  draftingEnv : FoundryState → DraftEnv
  revisionEnv : FoundryState → DraftEnv
  safetyEnv : FoundryState → ReviewerEnv
  empathyEnv : FoundryState → ReviewerEnv
  clinicalEnv : FoundryState → ReviewerEnv

/-- How an executor run ends. -/
inductive ExecOutcome where
  | finished (label : RouteLabel)
  | suspended
  | fuelExhausted
deriving DecidableEq, Repr

/-- Modelled from the spec (§4.3 step a): one parallel fan-out round.  The
three critics are dispatched against the same snapshot and their partial
results are merged through the field reducers; the `reviews` reducer makes
the merge order-independent up to permutation. -/
def fanoutRound (o : EnvOracle) (s : FoundryState) : FoundryState :=
  let u1 := run_safety_guardian (o.safetyEnv s) s
  let u2 := run_empathy_tone_agent (o.empathyEnv s) s
  let u3 := run_clinical_critic (o.clinicalEnv s) s
  applyUpdate (applyUpdate (applyUpdate s u1) u2) u3

/-- Modelled from the spec (§4.3 run loop; the executor itself is LangGraph
library code, not part of this repository): walk the graph of `build_graph`
from a node, invoking nodes, merging their updates, running fan-out rounds
atomically, evaluating `route_supervisor` on the post-merge state, and
interrupting after `await_human`.  Returns the list of invoked nodes, the
outcome, and the final state.  `fuel` bounds the number of loop turns. -/
def execFrom (o : EnvOracle) : Nat → Node → FoundryState →
    List Node × ExecOutcome × FoundryState
  | 0, _, s => ([], .fuelExhausted, s)
  | fuel + 1, n, s =>
    match n with
    | .intent_interpreter =>
      let s1 := applyUpdate s (run_intent_interpreter (o.intentEnv s) s)
      let r := execFrom o fuel .drafting s1
      (.intent_interpreter :: r.1, r.2)
    | .drafting =>
      let s1 := applyUpdate s (run_drafting_agent (o.draftingEnv s) s)
      let s2 := fanoutRound o s1
      let r := execFrom o fuel .supervisor s2
      (.drafting :: .safety :: .empathy :: .clinical :: r.1, r.2)
    | .revision =>
      let s1 := applyUpdate s (run_revision_agent (o.revisionEnv s) s)
      let s2 := fanoutRound o s1
      let r := execFrom o fuel .supervisor s2
      (.revision :: .safety :: .empathy :: .clinical :: r.1, r.2)
    | .safety =>
      let s1 := applyUpdate s (run_safety_guardian (o.safetyEnv s) s)
      let r := execFrom o fuel .supervisor s1
      (.safety :: r.1, r.2)
    | .empathy =>
      let s1 := applyUpdate s (run_empathy_tone_agent (o.empathyEnv s) s)
      let r := execFrom o fuel .supervisor s1
      (.empathy :: r.1, r.2)
    | .clinical =>
      let s1 := applyUpdate s (run_clinical_critic (o.clinicalEnv s) s)
      let r := execFrom o fuel .supervisor s1
      (.clinical :: r.1, r.2)
    | .supervisor =>
      let s1 := applyUpdate s (run_supervisor s)
      match route_supervisor s1 with
      | .await_human =>
        let s2 := applyUpdate s1 (await_human s1)
        ([.supervisor, .await_human], .suspended, s2)
      | .revision =>
        let r := execFrom o fuel .revision s1
        (.supervisor :: r.1, r.2)
      | lbl => ([.supervisor], .finished lbl, s1)
    | .await_human =>
      let s1 := applyUpdate s (await_human s)
      ([.await_human], .suspended, s1)

/-- Modelled from the spec (§4.3 step 3, §4.4 `applyPatch`): resuming a
suspended instance applies the external patch through the same field
reducers "as if from" the `await_human` node, then continues along the edge
leaving the suspension node, which `build_graph` wires to `supervisor`. -/
def resume_from_await_human (o : EnvOracle) (fuel : Nat) (patch : StateUpdate)
    (s : FoundryState) : List Node × ExecOutcome × FoundryState :=
  execFrom o fuel .supervisor (applyUpdate s patch)

/-! Concrete sample states used by witnesses and counterexamples. -/

/-- Sample state: critical safety score below the hard floor, with passing
secondary scores, the auto-finalize flag set and a mid-range iteration. -/
def stateC1 : FoundryState :=
  { session_id := "sess-c1"
    user_intent := "protocol"
    safety_score := some 0.1
    empathy_score := some 0.95
    clinical_score := some 0.95
    iteration := 2
    max_iterations := 4
    status := .REVIEWING
    approve_after_revision := true }

/-- Sample state: `error` already set, but status `REVIEWING` with passing
scores and iteration 1. -/
def stateC4 : FoundryState :=
  { session_id := "sess-c4"
    user_intent := "protocol"
    error := some "previous failure"
    safety_score := some 0.9
    empathy_score := some 0.9
    clinical_score := some 0.9
    iteration := 1
    max_iterations := 4
    status := .REVIEWING }

/-- Sample state used as the amended-C4 witness: status already `FAILED`. -/
def stateC4f : FoundryState :=
  { session_id := "sess-c4f"
    user_intent := "protocol"
    status := .FAILED }

/-- Sample state: auto-finalize mode, no scores, iteration exhausted. -/
def stateC5 : FoundryState :=
  { session_id := "sess-c5"
    user_intent := "protocol"
    iteration := 4
    max_iterations := 4
    status := .REVIEWING
    approve_after_revision := true }

/-- Sample state for Scenario A: normal mode, scores 0.9 / 0.85 / 0.92,
iteration 1. -/
def stateC7 : FoundryState :=
  { session_id := "sess-c7"
    user_intent := "protocol"
    safety_score := some 0.9
    empathy_score := some 0.85
    clinical_score := some 0.92
    iteration := 1
    max_iterations := 4
    status := .REVIEWING }

/-- Sample state: iteration exhausted, scores not all passing, and the
critical score below the hard floor at the same time. -/
def stateC8 : FoundryState :=
  { session_id := "sess-c8"
    user_intent := "protocol"
    safety_score := some 0.1
    iteration := 4
    max_iterations := 4
    status := .REVIEWING }

/-- Sample state: iteration exhausted, scores not all passing, critical score
above the hard floor. -/
def stateC8w : FoundryState :=
  { session_id := "sess-c8w"
    user_intent := "protocol"
    safety_score := some 0.8
    empathy_score := some 0.3
    clinical_score := some 0.9
    iteration := 4
    max_iterations := 4
    status := .REVIEWING }

/-- Sample review produced by the safety reviewer. -/
def reviewA : Review :=
  { id := "rev-a"
    agent_name := "SafetyGuardian"
    target_draft_id := "draft-0"
    summary := "safe"
    safety_score := some 0.9
    rationale := "No concerns." }

/-- Sample review produced by the empathy reviewer. -/
def reviewB : Review :=
  { id := "rev-b"
    agent_name := "EmpathyToneAgent"
    target_draft_id := "draft-0"
    summary := "warm"
    empathy_score := some 0.85
    rationale := "Supportive tone." }

/-- Sample review produced by the clinical reviewer. -/
def reviewC : Review :=
  { id := "rev-c"
    agent_name := "ClinicalCritic"
    target_draft_id := "draft-0"
    summary := "sound"
    clinical_score := some 0.92
    rationale := "Evidence-based." }

/-- Sample draft artifact. -/
def draft0 : Draft :=
  { id := "draft-0"
    content := "v0"
    created_by := "DraftingAgent" }

/-- Sample drafting/revision environment with a successful LLM call. -/
def envD1 : DraftEnv := { llm := .ok "draft v1", uuid := "draft-1", now := 1 }

/-- Sample drafting/revision environment with a failed LLM call. -/
def envD2 : DraftEnv := { llm := .error "timeout", uuid := "draft-2", now := 2 }

/-- Sample reviewer environment with a failed LLM call. -/
def envR : ReviewerEnv := { llm := .error "llm down", uuid := "rev-x" }

/-- Sample state holding a current draft (for the C3 witness). -/
def stateC3 : FoundryState :=
  { session_id := "sess-c3"
    user_intent := "protocol"
    current_draft := some draft0 }

/-- Fresh initial state: no draft, empty history (for the C3 witness). -/
def stateC3i : FoundryState :=
  { session_id := "sess-c3i"
    user_intent := "protocol" }

/-- Sample suspended state: awaiting the human decision with one prior
review, passing scores and one completed round (for C6). -/
def stateC6 : FoundryState :=
  { session_id := "sess-c6"
    user_intent := "protocol"
    current_draft := some draft0
    reviews := [reviewA]
    safety_score := some 0.9
    empathy_score := some 0.85
    clinical_score := some 0.92
    iteration := 1
    max_iterations := 4
    status := .AWAITING_HUMAN }

/-- Sample resume request: final approval keeping the draft text unchanged
(for C6). -/
def reqC6 : HumanApproveRequest := { new_content := "v0", action := .APPROVE_FINAL }

/-- Environment oracle whose LLM calls all fail (no agent logic beyond the
supervisor is exercised by the C6 witness). -/
def oracleC6 : EnvOracle :=
  { intentEnv := fun _ => { llm := .error "offline" }
    draftingEnv := fun _ => { llm := .error "offline", uuid := "u-d", now := 0 }
    revisionEnv := fun _ => { llm := .error "offline", uuid := "u-r", now := 0 }
    safetyEnv := fun _ => { llm := .error "offline", uuid := "u-s" }
    empathyEnv := fun _ => { llm := .error "offline", uuid := "u-e" }
    clinicalEnv := fun _ => { llm := .error "offline", uuid := "u-c" } }

/-- Sample suspended state with one prior review (failing input for C9). -/
def stateC9 : FoundryState :=
  { session_id := "sess-c9"
    user_intent := "protocol"
    current_draft := some draft0
    reviews := [reviewA]
    safety_score := some 0.9
    empathy_score := some 0.9
    clinical_score := some 0.9
    iteration := 1
    max_iterations := 4
    status := .AWAITING_HUMAN }

/-- Sample resume request for the C9 failing input. -/
def reqC9 : HumanApproveRequest := { new_content := "v0", action := .APPROVE_FINAL }

/-- Sample state without a current draft (for the C10 witness). -/
def stateC10 : FoundryState :=
  { session_id := "sess-c10"
    user_intent := "protocol" }

/-! Helper lemmas shared by the claim theorems. -/

/-- Applying the empty update (a node returning the empty dict) leaves every
field of the state unchanged. -/
theorem applyUpdate_empty (s : FoundryState) : applyUpdate s {} = s := by
  cases s
  simp [applyUpdate, merge_reviews]

/-- Folding the reviews reducer over a list of incoming partial lists
concatenates their flattening onto the current list. -/
theorem foldl_merge_reviews (current : List Review) (us : List (List Review)) :
    us.foldl merge_reviews current = current ++ us.flatten := by
  induction us generalizing current with
  | nil => simp
  | cons u rest ih => simp [merge_reviews, ih]

/-- Permuting the outer list permutes the flattening. -/
theorem perm_flatten_of_perm {α : Type} {l₁ l₂ : List (List α)} (h : l₁.Perm l₂) :
    l₁.flatten.Perm l₂.flatten := by
  induction h with
  | nil => exact .rfl
  | cons x _ ih => simpa using ih.append_left x
  | swap x y l =>
    simp only [List.flatten_cons, ← List.append_assoc]
    exact List.perm_append_comm.append_right _
  | trans _ _ ih1 ih2 => exact ih1.trans ih2

/-- One artifact step adds one to `artifactCount` exactly when it produces a
new draft. -/
theorem artifactCount_applyStep (s : FoundryState) (st : ArtifactStep) :
    artifactCount (applyStep s st) =
      artifactCount s +
        (if (artifactUpdate st s).current_draft.isSome then 1 else 0) := by
  cases st with
  | drafting env =>
    cases h : s.current_draft with
    | none =>
      simp [applyStep, artifactUpdate, run_drafting_agent, applyUpdate,
        artifactCount, h]
    | some d =>
      simp [applyStep, artifactUpdate, run_drafting_agent, applyUpdate,
        artifactCount, h]
  | revision env =>
    cases h : s.current_draft with
    | none =>
      simp [applyStep, artifactUpdate, run_revision_agent, h, applyUpdate_empty]
    | some d =>
      simp [applyStep, artifactUpdate, run_revision_agent, applyUpdate,
        artifactCount, h]

/-- Running a step sequence adds `producedCount` to `artifactCount`. -/
theorem runSteps_artifactCount (steps : List ArtifactStep) (s : FoundryState) :
    artifactCount (runSteps s steps) = artifactCount s + producedCount s steps := by
  induction steps generalizing s with
  | nil => simp [runSteps, producedCount]
  | cons st rest ih =>
    show artifactCount (runSteps (applyStep s st) rest) = _
    rw [ih, artifactCount_applyStep, producedCount]
    omega

/-! Claim theorems about the supervisor and its router. -/

/-- C1: whenever the critical safety score is set and below the hard floor
0.2, `run_supervisor` returns an update setting status to FAILED with a
non-null error message, and `route_supervisor` on the merged state returns
the failure terminal — for every state, hence regardless of the empathy and
clinical scores, the iteration counter, or the approve-after-revision flag. -/
theorem C1_critical_floor_fails_and_routes_failed (s : FoundryState) (q : ℚ)
    (h1 : s.safety_score = some q) (h2 : q < 0.2) :
    (run_supervisor s).status = some .FAILED ∧
    (run_supervisor s).error = some "Critical safety violation detected." ∧
    route_supervisor (applyUpdate s (run_supervisor s)) = .FAILED := by
  have hc : s.safety_score ≠ none ∧ s.safety_score.getD 0 < (0.2 : ℚ) := by
    rw [h1]
    exact ⟨Option.some_ne_none q, by simpa using h2⟩
  rw [run_supervisor, if_pos hc]
  refine ⟨rfl, rfl, ?_⟩
  rw [route_supervisor]
  simp [applyUpdate]

/-- C1 witness: the theorem applied at `stateC1`. -/
theorem C1_witness :
    (run_supervisor stateC1).status = some .FAILED ∧
    (run_supervisor stateC1).error = some "Critical safety violation detected." ∧
    route_supervisor (applyUpdate stateC1 (run_supervisor stateC1)) = .FAILED :=
  C1_critical_floor_fails_and_routes_failed stateC1 0.1 rfl (by norm_num)

/-- C4 counterexample: a state whose `error` field is set while its status is
`REVIEWING` with passing scores is routed to `await_human`, not to the
failure terminal — the router inspects `status`, never `error`. -/
theorem C4_error_set_not_routed_failed_cex :
    stateC4.error ≠ none ∧
    route_supervisor stateC4 ≠ .FAILED ∧
    route_supervisor stateC4 = .await_human := by
  have hp : scores_passing stateC4 := by
    refine ⟨⟨by simp [stateC4], by simp [stateC4], by simp [stateC4]⟩, ?_, ?_, ?_⟩ <;>
      norm_num [stateC4, SAFETY_THRESHOLD, EMPATHY_THRESHOLD, CLINICAL_THRESHOLD]
  have h : route_supervisor stateC4 = .await_human := by
    rw [route_supervisor, if_neg (by decide), if_neg (by decide),
      if_neg (by decide), if_neg (by decide), if_neg (by decide),
      if_pos ⟨hp, by decide⟩]
  refine ⟨by simp [stateC4], ?_, h⟩
  rw [h]
  decide

/-- C4 amended: for every state whose `status` field is FAILED (the terminal
failure condition the router actually inspects), the router returns the
failure terminal, regardless of the scores, the iteration counter, or any
flags. -/
theorem C4_amended_failed_status_routes_failed (s : FoundryState)
    (h : s.status = .FAILED) : route_supervisor s = .FAILED := by
  rw [route_supervisor, if_pos h]

/-- C4 witness: the amended theorem applied at `stateC4f`. -/
theorem C4_witness : route_supervisor stateC4f = .FAILED :=
  C4_amended_failed_status_routes_failed stateC4f rfl

/-- C5: in auto-finalize mode after a revision round (`approve_after_revision`
set and status `REVIEWING`), the router returns the success terminal when all
scores pass, otherwise the failure terminal when the iteration counter has
reached the maximum, otherwise the revision node. -/
theorem C5_approve_mode_routing (s : FoundryState)
    (hf : s.approve_after_revision = true) (hs : s.status = .REVIEWING) :
    route_supervisor s =
      (if scores_passing s then RouteLabel.approved
       else if s.max_iterations ≤ s.iteration then RouteLabel.FAILED
       else RouteLabel.revision) := by
  rw [route_supervisor]
  rw [if_neg (by rw [hs]; decide), if_neg (by rw [hs]; decide),
    if_neg (by rw [hs]; decide), if_neg (by rw [hs]; decide), if_pos ⟨hf, hs⟩]
  split_ifs with hp hlt hle hle' <;> first | rfl | omega

/-- C5 witness: the theorem applied at `stateC5` (exhausted, not passing). -/
theorem C5_witness :
    route_supervisor stateC5 =
      (if scores_passing stateC5 then RouteLabel.approved
       else if stateC5.max_iterations ≤ stateC5.iteration then RouteLabel.FAILED
       else RouteLabel.revision) :=
  C5_approve_mode_routing stateC5 rfl rfl

/-- C7: in normal mode (flag clear, status none of FAILED / APPROVED /
REVISING / REJECTED) with scores 0.9, 0.85, 0.92 and iteration 1, the router
returns the suspension node `await_human`. -/
theorem C7_normal_mode_passing_routes_await_human (s : FoundryState)
    (hflag : s.approve_after_revision = false)
    (h1 : s.status ≠ .FAILED) (h2 : s.status ≠ .APPROVED)
    (h3 : s.status ≠ .REVISING) (h4 : s.status ≠ .REJECTED)
    (hs : s.safety_score = some 0.9) (he : s.empathy_score = some 0.85)
    (hc : s.clinical_score = some 0.92) (hi : s.iteration = 1) :
    route_supervisor s = .await_human := by
  have hp : scores_passing s := by
    refine ⟨⟨?_, ?_, ?_⟩, ?_, ?_, ?_⟩ <;>
      simp [hs, he, hc, SAFETY_THRESHOLD, EMPATHY_THRESHOLD, CLINICAL_THRESHOLD] <;>
      norm_num
  rw [route_supervisor, if_neg h1, if_neg h2, if_neg h3, if_neg h4,
    if_neg (by simp [hflag]), if_pos ⟨hp, by omega⟩]

/-- C7 witness: the theorem applied at `stateC7`. -/
theorem C7_witness : route_supervisor stateC7 = .await_human :=
  C7_normal_mode_passing_routes_await_human stateC7 rfl (by decide) (by decide)
    (by decide) (by decide) rfl rfl rfl rfl

/-- C8 counterexample: at a state satisfying the claim's hypotheses
(iteration exhausted, scores not all passing) whose critical score is also
below the hard floor, the supervisor stores the critical-safety error
message, not the iteration-exhaustion one. -/
theorem C8_exhaustion_message_cex :
    stateC8.max_iterations ≤ stateC8.iteration ∧
    ¬ scores_passing stateC8 ∧
    (run_supervisor stateC8).error ≠
      some "Max iterations reached without meeting quality thresholds." ∧
    (run_supervisor stateC8).error = some "Critical safety violation detected." := by
  have h : run_supervisor stateC8 =
      { status := some .FAILED
        error := some "Critical safety violation detected."
        approve_after_revision := some false } := by
    norm_num [run_supervisor, stateC8]
    simp
  refine ⟨by decide, ?_, ?_, ?_⟩
  · simp [scores_passing, scores_present, stateC8]
  · rw [h]
    decide
  · rw [h]

/-- C8 amended: when the iteration counter has reached the configured maximum,
the scores are not all passing, and the critical safety score is not below the
hard floor (the critical check takes precedence and stores a different error),
the supervisor sets status FAILED with the iteration-exhaustion error message
and the router on the merged state returns the failure terminal. -/
theorem C8_amended_exhaustion_fails (s : FoundryState)
    (hmax : s.max_iterations ≤ s.iteration)
    (hnp : ¬ scores_passing s)
    (hsafe : ∀ q : ℚ, s.safety_score = some q → ¬ (q < 0.2)) :
    (run_supervisor s).status = some .FAILED ∧
    (run_supervisor s).error =
      some "Max iterations reached without meeting quality thresholds." ∧
    route_supervisor (applyUpdate s (run_supervisor s)) = .FAILED := by
  have hcrit : ¬ (s.safety_score ≠ none ∧ s.safety_score.getD 0 < (0.2 : ℚ)) := by
    rintro ⟨hn, hlt⟩
    cases hq : s.safety_score with
    | none => exact hn hq
    | some q =>
      refine hsafe q hq ?_
      rw [hq] at hlt
      simpa using hlt
  rw [run_supervisor, if_neg hcrit]
  by_cases hm : s.approve_after_revision = true ∧ s.status = Status.REVIEWING
  · rw [if_pos hm, if_neg hnp, if_pos hmax]
    refine ⟨rfl, rfl, ?_⟩
    rw [route_supervisor]
    simp [applyUpdate]
  · rw [if_neg hm, if_neg (fun h => hnp h.1), if_pos ⟨hmax, hnp⟩]
    refine ⟨rfl, rfl, ?_⟩
    rw [route_supervisor]
    simp [applyUpdate]

/-- C8 witness: the amended theorem applied at `stateC8w`. -/
theorem C8_witness :
    (run_supervisor stateC8w).status = some .FAILED ∧
    (run_supervisor stateC8w).error =
      some "Max iterations reached without meeting quality thresholds." ∧
    route_supervisor (applyUpdate stateC8w (run_supervisor stateC8w)) = .FAILED :=
  C8_amended_exhaustion_fails stateC8w (by decide)
    (by norm_num [scores_passing, scores_present, stateC8w,
      SAFETY_THRESHOLD, EMPATHY_THRESHOLD, CLINICAL_THRESHOLD])
    (fun q hq => by
      simp [stateC8w] at hq
      subst hq
      norm_num)

/-- C2: the declared reviews reducer is order-independent with respect to
which sibling's update is applied first — any permutation of the incoming
partial lists yields the same final annotation set (list equal up to
permutation) — and an empty or absent incoming list is an identity. -/
theorem C2_reviews_reducer_order_independent :
    (∀ (current : List Review) (us vs : List (List Review)), us.Perm vs →
      (us.foldl merge_reviews current).Perm (vs.foldl merge_reviews current)) ∧
    (∀ current : List Review, merge_reviews current [] = current) ∧
    (∀ (s : FoundryState) (u : StateUpdate), u.reviews = none →
      (applyUpdate s u).reviews = s.reviews) := by
  refine ⟨?_, ?_, ?_⟩
  · intro current us vs h
    rw [foldl_merge_reviews, foldl_merge_reviews]
    exact (perm_flatten_of_perm h).append_left current
  · intro current
    simp [merge_reviews]
  · intro s u h
    simp [applyUpdate, h, merge_reviews]

/-- C2 witness: the theorem applied to two sibling singleton updates in both
completion orders over one prior review, to the empty incoming list, and to
an update with the reviews key absent. -/
theorem C2_witness :
    ([[reviewB], [reviewC]].foldl merge_reviews [reviewA]).Perm
      ([[reviewC], [reviewB]].foldl merge_reviews [reviewA]) ∧
    merge_reviews [reviewA] [] = [reviewA] ∧
    (applyUpdate stateC10 {}).reviews = stateC10.reviews :=
  ⟨C2_reviews_reducer_order_independent.1 [reviewA] _ _ (List.Perm.swap _ _ _),
   C2_reviews_reducer_order_independent.2.1 [reviewA],
   C2_reviews_reducer_order_independent.2.2 stateC10 {} rfl⟩

/-- C3: an artifact-producing step on a state with a non-null current draft
appends exactly that draft to the end of the history in the same update (so
the old history is preserved unreordered and untruncated as a prefix), and
from a fresh state the history length plus one-if-current-non-null equals the
number of artifact-producing steps executed. -/
theorem C3_artifact_history_invariant :
    (∀ (st : ArtifactStep) (s : FoundryState) (d : Draft),
      s.current_draft = some d →
        (artifactUpdate st s).current_draft.isSome = true ∧
        (artifactUpdate st s).draft_history = some (s.draft_history ++ [d])) ∧
    (∀ (s : FoundryState) (steps : List ArtifactStep),
      s.current_draft = none → s.draft_history = [] →
      artifactCount (runSteps s steps) = producedCount s steps) := by
  constructor
  · intro st s d h
    cases st with
    | drafting env =>
      simp [artifactUpdate, run_drafting_agent, h]
    | revision env =>
      simp [artifactUpdate, run_revision_agent, h]
  · intro s steps h1 h2
    rw [runSteps_artifactCount]
    simp [artifactCount, h1, h2]

/-- C3 witness: the theorem applied to a revision step on a state with a
current draft, and to a two-step run (drafting, then revision with a failing
LLM) from a fresh state. -/
theorem C3_witness :
    ((artifactUpdate (.revision envD1) stateC3).current_draft.isSome = true ∧
     (artifactUpdate (.revision envD1) stateC3).draft_history =
       some (stateC3.draft_history ++ [draft0])) ∧
    artifactCount (runSteps stateC3i [.drafting envD1, .revision envD2]) =
      producedCount stateC3i [.drafting envD1, .revision envD2] :=
  ⟨C3_artifact_history_invariant.1 (.revision envD1) stateC3 draft0 rfl,
   C3_artifact_history_invariant.2 stateC3i [.drafting envD1, .revision envD2] rfl rfl⟩

/-- C10: on a state with no current draft each reviewer node and the revision
node returns the empty partial update, and the empty update leaves every
field of the state unchanged. -/
theorem C10_reviewers_frame_on_missing_draft (s : FoundryState)
    (h : s.current_draft = none)
    (es ee ec : ReviewerEnv) (er : DraftEnv) :
    run_safety_guardian es s = {} ∧
    run_empathy_tone_agent ee s = {} ∧
    run_clinical_critic ec s = {} ∧
    run_revision_agent er s = {} ∧
    applyUpdate s {} = s := by
  refine ⟨?_, ?_, ?_, ?_, applyUpdate_empty s⟩ <;>
    simp [run_safety_guardian, run_empathy_tone_agent, run_clinical_critic,
      run_revision_agent, h]

/-- C10 witness: the theorem applied at a draftless state with failing
reviewer environments. -/
theorem C10_witness :
    run_safety_guardian envR stateC10 = {} ∧
    run_empathy_tone_agent envR stateC10 = {} ∧
    run_clinical_critic envR stateC10 = {} ∧
    run_revision_agent envD2 stateC10 = {} ∧
    applyUpdate stateC10 {} = stateC10 :=
  C10_reviewers_frame_on_missing_draft stateC10 rfl envR envR envR envD2

/-- C9: at the concrete failing input — a suspended state holding one prior
review, resumed with an APPROVE_FINAL patch — the update built by
`human_approve` carries the full serialized existing review list plus the
human review, so the append reducer duplicates every prior review: the
resulting list is not the prior reviews plus the new one each once. -/
theorem C9_resume_duplicates_reviews :
    stateC9.reviews = [reviewA] ∧
    (applyUpdate stateC9 (human_approve_updates "h-9" reqC9 stateC9)).reviews =
      [reviewA, reviewA, human_review "h-9" reqC9 stateC9] ∧
    (applyUpdate stateC9 (human_approve_updates "h-9" reqC9 stateC9)).reviews ≠
      stateC9.reviews ++ [human_review "h-9" reqC9 stateC9] := by
  refine ⟨rfl, ?_, ?_⟩
  · simp [applyUpdate, human_approve_updates, merge_reviews, stateC9]
  · intro h
    have hlen := congrArg List.length h
    simp [applyUpdate, human_approve_updates, merge_reviews, stateC9] at hlen

/-- C6: resuming a suspended instance (status AWAITING_HUMAN, passing scores)
with the APPROVE_FINAL patch makes the next run step invoke only the
supervisor, finish at the success terminal, and leave the state APPROVED —
no reviewer, drafting or revision node is re-invoked. -/
theorem C6_resume_approved_routes_directly (o : EnvOracle) (fuel : Nat)
    (s : FoundryState) (uuid : String) (req : HumanApproveRequest)
    (ha : req.action = .APPROVE_FINAL)
    (hst : s.status = .AWAITING_HUMAN)
    (hp : scores_passing s) :
    (resume_from_await_human o (fuel + 1) (human_approve_updates uuid req s) s).1 =
      [Node.supervisor] ∧
    (resume_from_await_human o (fuel + 1) (human_approve_updates uuid req s) s).2.1 =
      .finished .approved ∧
    (resume_from_await_human o (fuel + 1) (human_approve_updates uuid req s) s).2.2.status =
      .APPROVED := by
  have hstat : (applyUpdate s (human_approve_updates uuid req s)).status = .APPROVED := by
    simp [applyUpdate, human_approve_updates, ha]
  have hsc1 : (applyUpdate s (human_approve_updates uuid req s)).safety_score =
      s.safety_score := by
    simp [applyUpdate, human_approve_updates]
  have hsc2 : (applyUpdate s (human_approve_updates uuid req s)).empathy_score =
      s.empathy_score := by
    simp [applyUpdate, human_approve_updates]
  have hsc3 : (applyUpdate s (human_approve_updates uuid req s)).clinical_score =
      s.clinical_score := by
    simp [applyUpdate, human_approve_updates]
  set s1 := applyUpdate s (human_approve_updates uuid req s) with hs1
  have hp1 : scores_passing s1 := by
    unfold scores_passing scores_present at hp ⊢
    rw [hsc1, hsc2, hsc3]
    exact hp
  have hcrit : ¬ (s1.safety_score ≠ none ∧ s1.safety_score.getD 0 < (0.2 : ℚ)) := by
    rintro ⟨-, hlt⟩
    have h07 : SAFETY_THRESHOLD ≤ s1.safety_score.getD 0 := hp1.2.1
    rw [SAFETY_THRESHOLD] at h07
    norm_num at h07 hlt
    linarith
  have hsup : run_supervisor s1 = {} := by
    rw [run_supervisor, if_neg hcrit,
      if_neg (by rintro ⟨-, h⟩; rw [hstat] at h; exact absurd h (by decide))]
    by_cases hi : 1 ≤ s1.iteration
    · rw [if_pos ⟨hp1, hi⟩]
    · rw [if_neg (fun h => hi h.2), if_neg (fun h => h.2 hp1)]
  have hroute : route_supervisor s1 = .approved := by
    rw [route_supervisor, if_neg (by rw [hstat]; decide), if_pos hstat]
  have hmerge : applyUpdate s1 (run_supervisor s1) = s1 := by
    rw [hsup, applyUpdate_empty]
  refine ⟨?_, ?_, ?_⟩ <;>
    simp only [resume_from_await_human, execFrom, ← hs1, hmerge, hroute, hstat]

/-- C6 witness: the theorem applied at the suspended sample state with the
all-failing oracle and one unit of fuel. -/
theorem C6_witness :
    (resume_from_await_human oracleC6 1 (human_approve_updates "h-6" reqC6 stateC6) stateC6).1 =
      [Node.supervisor] ∧
    (resume_from_await_human oracleC6 1 (human_approve_updates "h-6" reqC6 stateC6) stateC6).2.1 =
      .finished .approved ∧
    (resume_from_await_human oracleC6 1 (human_approve_updates "h-6" reqC6 stateC6) stateC6).2.2.status =
      .APPROVED :=
  C6_resume_approved_routes_directly oracleC6 0 stateC6 "h-6" reqC6 rfl rfl
    ⟨⟨by simp [stateC6], by simp [stateC6], by simp [stateC6]⟩,
     by norm_num [stateC6, SAFETY_THRESHOLD],
     by norm_num [stateC6, EMPATHY_THRESHOLD],
     by norm_num [stateC6, CLINICAL_THRESHOLD]⟩

end Cerina
